import Mathlib

/-
Shallow embedding of `src/src/index.ts` (the `PeerPort` command/event adapter
over the peerjs capability).  Pure translation of the source:

* JavaScript runtime values relevant to payload classification are modelled by
  `JsVal`; `instanceof String/Number/Boolean` is true only for wrapper objects,
  never for primitives, exactly as in JavaScript.
* The `Storage` / `MapStorage` registry is an association list with
  `get`/`set`/`delete` observationally equal to a JS `Map`.
* `nanoid()` (an external capability producing fresh opaque ids) is modelled by
  an injective counter-indexed generator threaded through `PortState.nextId`.
* Each `conn.on(...)` closure becomes an explicit function from the captured
  subscriber record and the port state to the emitted events and new state.
* A `throw` inside a handler is modelled by the `thrown` field of `CmdResult`:
  `some tag` means the string exception escaped the handler (and `handleMsg`,
  which installs no catch) synchronously.
* Calls into the peerjs capability (`peer.connect`, `peer.call`,
  `peer.reconnect`, `mediaConnection.answer`) are recorded in `CmdResult.calls`.
-/

namespace PeerPort

/-- A JavaScript runtime value as far as the adapter inspects it: primitive
string/number/boolean, their wrapper objects (`new String(...)` etc.), the
adapter's own `JsonData` and `BlobData` wrapper classes, plain
objects/arrays, `null` and `undefined`. -/
inductive JsVal where
  | str (s : String)
  | num (n : Int)
  | bool (b : Bool)
  | strObj (s : String)
  | numObj (n : Int)
  | boolObj (b : Bool)
  | jsonData (d : JsVal)
  | blobData (d : JsVal)
  | obj
  | arr
  | nullV
  | undef
deriving DecidableEq, Repr

/-- JavaScript `typeof` on a `JsVal` (note `typeof null = "object"`). -/
def typeofName : JsVal → String
  | .str _ => "string"
  | .num _ => "number"
  | .bool _ => "boolean"
  | .strObj _ => "object"
  | .numObj _ => "object"
  | .boolObj _ => "object"
  | .jsonData _ => "object"
  | .blobData _ => "object"
  | .obj => "object"
  | .arr => "object"
  | .nullV => "object"
  | .undef => "undefined"

/-- A resource held in the handle registry: a `Peer` session (with its `id`
property), a `DataConnection` (with its `peer` property naming the remote), a
`MediaConnection`, a `MediaStream`, or a raw stored payload. -/
inductive Resource where
  | peer (id : String)
  | dataConn (remotePeer : String)
  | mediaConn (remotePeer : String)
  | mediaStream
  | rawPayload (v : JsVal)
deriving DecidableEq, Repr

/-- Outbound events, one constructor per object literal the source passes to
`this.#send`.  Constructor names follow the `type` tags the code actually
writes; fields whose value in the source is the captured `peerID` variable of
`subscribeToPeerEvents` (which may still be `undefined`) have type
`Option String`. -/
inductive Event where
  | peerDoesNotExist (peerID : String)
  | peerOpened (peerID : String)
  | peerDisconnected (peerID : String)
  | peerClosed (peerID : Option String)
  | peerError (peerID : Option String) (err : String)
  | dataOpened (dataID : String) (loc : Option String) (remote : String)
  | dataClosed (dataID : String) (loc : Option String) (remote : String)
  | dataError (dataID : String) (loc : Option String) (remote : String) (err : String)
  | dataReceivedJSON (dataID : String) (loc : Option String) (remote : String) (data : JsVal)
  | dataReceivedBlob (dataID : String) (blobID : String) (loc : Option String)
      (remote : String) (contentType : String)
  | mediaStreamReceived (mediaConnectionID : String) (streamID : String)
      (loc : Option String) (remote : String)
  | mediaStreamClosed (mediaConnectionID : String) (loc : Option String) (remote : String)
  | mediaStreamError (mediaConnectionID : String) (loc : Option String)
      (remote : String) (err : String)
  | mediaConnectionDoesNotExist (mediaConnectionID : String)
  | streamDoesNotExist (streamID : String)
deriving DecidableEq, Repr

/-- The TypeScript `type` tag string of an emitted event. -/
def tagOf : Event → String
  | .peerDoesNotExist _ => "PeerDoesNotExist"
  | .peerOpened _ => "PeerOpened"
  | .peerDisconnected _ => "PeerDisconnected"
  | .peerClosed _ => "PeerClosed"
  | .peerError _ _ => "PeerError"
  | .dataOpened _ _ _ => "DataOpened"
  | .dataClosed _ _ _ => "DataClosed"
  | .dataError _ _ _ _ => "DataError"
  | .dataReceivedJSON _ _ _ _ => "DataReceivedJSON"
  | .dataReceivedBlob _ _ _ _ _ => "DataReceivedBlob"
  | .mediaStreamReceived _ _ _ _ => "MediaStreamReceived"
  | .mediaStreamClosed _ _ _ => "MediaStreamClosed"
  | .mediaStreamError _ _ _ _ => "MediaStreamError"
  | .mediaConnectionDoesNotExist _ => "MediaConnectionDoesNotExist"
  | .streamDoesNotExist _ => "StreamDoesNotExist"

/-- The tags of the declared `PeerEvent` union type (source lines 243-258).
The source file declares these fifteen variants; whatever `#send` receives is
supposed to be one of them. -/
def declaredPeerEventTags : List String :=
  ["PeerDoesNotExist", "PeerOpened", "PeerDisconnected", "PeerClosed", "PeerError",
   "DataOpened", "DataClosed", "DataError", "DataReceivedJSON", "DataReceivedBlob",
   "MediaStreamReceived", "MediaConnectionClosed", "MediaConnectionError",
   "MediaConnectionDoesNotExist", "StreamDoesNotExist"]

/-- The handle registry: `MapStorage` in the source, an association list here
with the same `get`/`set`/`delete` observations as a JS `Map` keyed by string. -/
abbrev Registry := List (String × Resource)

/-- `MapStorage.get`: the value stored under `k`, or `undefined` (`none`). -/
def storageGet : Registry → String → Option Resource
  | [], _ => none
  | e :: rest, k => if e.1 = k then some e.2 else storageGet rest k

/-- `MapStorage.delete`: remove the entry under `k` if present. -/
def storageDelete : Registry → String → Registry
  | [], _ => []
  | e :: rest, k => if e.1 = k then storageDelete rest k else e :: storageDelete rest k

/-- `MapStorage.set`: store or replace the entry under `k`. -/
def storageSet (r : Registry) (k : String) (v : Resource) : Registry :=
  (k, v) :: storageDelete r k

/-- The fresh-identifier capability (`nanoid()` in the source): an injective
generator indexed by the counter threaded through `PortState`. -/
def nanoid (c : Nat) : String := "nanoid-" ++ toString c

/-- Mutable state of one `PeerPort` object: the handle registry behind
`this.#storage`, plus the supply counter for the external `nanoid` capability. -/
structure PortState where
  storage : Registry
  nextId : Nat
deriving DecidableEq, Repr

/-- The closure environment captured by the `conn.on(...)` callbacks installed
by `handleDataMsg(local, conn)`: the generated `dataID`, the `local` argument
(possibly the still-`undefined` `peerID` variable) and `conn.peer`. -/
structure DataSub where
  dataID : String
  loc : Option String
  remote : String
deriving DecidableEq, Repr

/-- `handleDataMsg` (source lines 58-131) at attachment time: generate one
fresh `dataID` and install the callbacks.  Synchronously it emits nothing and
does not touch the registry. -/
def handleDataMsg (st : PortState) (loc : Option String) (remote : String) :
    DataSub × PortState :=
  (⟨nanoid st.nextId, loc, remote⟩, ⟨st.storage, st.nextId + 1⟩)

/-- The `conn.on("open", ...)` callback of `handleDataMsg`: register the
channel under `dataID` and emit `DataOpened`. -/
def dataOnOpen (sub : DataSub) (st : PortState) : List Event × PortState :=
  ([Event.dataOpened sub.dataID sub.loc sub.remote],
   ⟨storageSet st.storage sub.dataID (Resource.dataConn sub.remote), st.nextId⟩)

/-- The `conn.on("close", ...)` callback of `handleDataMsg`: emit `DataClosed`;
the registry is untouched. -/
def dataOnClose (sub : DataSub) (st : PortState) : List Event × PortState :=
  ([Event.dataClosed sub.dataID sub.loc sub.remote], st)

/-- The `conn.on("error", ...)` callback of `handleDataMsg`: emit `DataError`. -/
def dataOnError (sub : DataSub) (err : String) (st : PortState) : List Event × PortState :=
  ([Event.dataError sub.dataID sub.loc sub.remote err], st)

/-- The `conn.on("data", ...)` callback of `handleDataMsg` (source lines
74-130), branch for branch: `data instanceof BlobData` stores `data.data` under
a fresh `blobID` with `contentType = data.contentType` (i.e. `typeof` the
wrapped value); `data instanceof JsonData` emits the wrapped value inline;
`data instanceof String/Number/Boolean` (true only for wrapper objects, never
for primitives) emits `data` inline; everything else - including primitive
strings, numbers and booleans - stores `data` under a fresh `blobID` with
`contentType = typeof data`. -/
def dataOnData (sub : DataSub) (v : JsVal) (st : PortState) : List Event × PortState :=
  match v with
  | .blobData d =>
      ([Event.dataReceivedBlob sub.dataID (nanoid st.nextId) sub.loc sub.remote (typeofName d)],
       ⟨storageSet st.storage (nanoid st.nextId) (Resource.rawPayload d), st.nextId + 1⟩)
  | .jsonData d =>
      ([Event.dataReceivedJSON sub.dataID sub.loc sub.remote d], st)
  | .strObj s =>
      ([Event.dataReceivedJSON sub.dataID sub.loc sub.remote (JsVal.strObj s)], st)
  | .numObj n =>
      ([Event.dataReceivedJSON sub.dataID sub.loc sub.remote (JsVal.numObj n)], st)
  | .boolObj b =>
      ([Event.dataReceivedJSON sub.dataID sub.loc sub.remote (JsVal.boolObj b)], st)
  | other =>
      ([Event.dataReceivedBlob sub.dataID (nanoid st.nextId) sub.loc sub.remote
          (typeofName other)],
       ⟨storageSet st.storage (nanoid st.nextId) (Resource.rawPayload other), st.nextId + 1⟩)

/-- The closure environment captured by the callbacks installed by
`handleMediaMsg(local, conn)`: the generated `mediaConnectionID`, the `local`
argument and `conn.peer`. -/
structure MediaSub where
  mediaConnectionID : String
  loc : Option String
  remote : String
deriving DecidableEq, Repr

/-- `handleMediaMsg` (source lines 133-167) at attachment time: generate one
fresh `mediaConnectionID` and register the connection immediately, before any
callback can fire. -/
def handleMediaMsg (st : PortState) (loc : Option String) (remote : String) :
    MediaSub × PortState :=
  (⟨nanoid st.nextId, loc, remote⟩,
   ⟨storageSet st.storage (nanoid st.nextId) (Resource.mediaConn remote), st.nextId + 1⟩)

/-- The `conn.on("stream", ...)` callback of `handleMediaMsg`: generate a fresh
`streamID`, register the stream, emit `MediaStreamReceived`. -/
def mediaOnStream (sub : MediaSub) (st : PortState) : List Event × PortState :=
  ([Event.mediaStreamReceived sub.mediaConnectionID (nanoid st.nextId) sub.loc sub.remote],
   ⟨storageSet st.storage (nanoid st.nextId) Resource.mediaStream, st.nextId + 1⟩)

/-- The `conn.on("close", ...)` callback of `handleMediaMsg` (source lines
149-156): the object literal it sends carries the tag `"MediaStreamClosed"`,
not `"MediaConnectionClosed"`; the registry is untouched. -/
def mediaOnClose (sub : MediaSub) (st : PortState) : List Event × PortState :=
  ([Event.mediaStreamClosed sub.mediaConnectionID sub.loc sub.remote], st)

/-- The `conn.on("error", ...)` callback of `handleMediaMsg` (source lines
158-166): the tag it sends is `"MediaStreamError"`, not
`"MediaConnectionError"`. -/
def mediaOnError (sub : MediaSub) (err : String) (st : PortState) : List Event × PortState :=
  ([Event.mediaStreamError sub.mediaConnectionID sub.loc sub.remote err], st)

/-- The closure environment of `subscribeToPeerEvents`: the single mutable
variable `let peerID` shared by all six callbacks.  It starts out `undefined`
(`none`) and is assigned only inside the `open` callback. -/
structure PeerSub where
  peerID : Option String
deriving DecidableEq, Repr

/-- The value of the captured `peerID` variable before the `open` callback has
fired: `undefined`. -/
def initPeerSub : PeerSub := ⟨none⟩

/-- The `peer.on("open", ...)` callback (source lines 30-34): assign the
capability-provided id to the captured variable, register the session under
that id, emit `PeerOpened`. -/
def peerOnOpen (assignedId : String) (st : PortState) :
    List Event × PortState × PeerSub :=
  ([Event.peerOpened assignedId],
   ⟨storageSet st.storage assignedId (Resource.peer assignedId), st.nextId⟩,
   ⟨some assignedId⟩)

/-- The `peer.on("close", ...)` callback (source lines 36-39): delete the
registry entry under the object property `peer.id` (a `Map.delete` with an
`undefined` key is a no-op) and emit `PeerClosed` carrying the captured
variable. -/
def peerOnClose (sub : PeerSub) (peerObjId : Option String) (st : PortState) :
    List Event × PortState :=
  ([Event.peerClosed sub.peerID],
   match peerObjId with
   | some k => ⟨storageDelete st.storage k, st.nextId⟩
   | none => st)

/-- The `peer.on("disconnected", ...)` callback (source lines 41-43): emit
`PeerDisconnected` carrying the id passed by the capability, not the captured
variable. -/
def peerOnDisconnected (id : String) (st : PortState) : List Event × PortState :=
  ([Event.peerDisconnected id], st)

/-- The `peer.on("error", ...)` callback (source lines 45-47): emit `PeerError`
carrying the captured variable. -/
def peerOnError (sub : PeerSub) (err : String) (st : PortState) : List Event × PortState :=
  ([Event.peerError sub.peerID err], st)

/-- The `peer.on("connection", ...)` callback (source lines 49-51): hand the
remote-initiated data connection to `handleDataMsg` with the captured variable
as `local`. -/
def peerOnConnection (sub : PeerSub) (remote : String) (st : PortState) :
    DataSub × PortState :=
  handleDataMsg st sub.peerID remote

/-- The `peer.on("call", ...)` callback (source lines 53-55): hand the
remote-initiated media connection to `handleMediaMsg` with the captured
variable as `local`. -/
def peerOnCall (sub : PeerSub) (remote : String) (st : PortState) :
    MediaSub × PortState :=
  handleMediaMsg st sub.peerID remote

/-- A call the adapter makes into the peerjs capability. -/
inductive CapCall where
  | createPeer (peerID : Option String)
  | connect (loc remote : String)
  | call (loc remote streamID : String)
  | reconnect (peerID : String)
  | answerWith (mediaConnectionID streamID : String)
  | answerNoStream (mediaConnectionID : String)
deriving DecidableEq, Repr

/-- The synchronous outcome of one command handler: the events sent, the port
state afterwards, the string exception that escaped the handler (and
`handleMsg`, which installs no `try`/`catch`) if one was thrown, and the calls
made into the capability. -/
structure CmdResult where
  events : List Event
  state : PortState
  thrown : Option String
  calls : List CapCall
deriving DecidableEq, Repr

/-- The private method `#getPeer` (source lines 226-236): look up the handle;
when the entry is `undefined` or not a `Peer` instance, send
`PeerDoesNotExist` and throw the string `"PeerDoesNotExist"`. -/
def getPeer (st : PortState) (peerID : String) : List Event × Except String Resource :=
  match storageGet st.storage peerID with
  | some (Resource.peer pid) => ([], Except.ok (Resource.peer pid))
  | _ => ([Event.peerDoesNotExist peerID], Except.error "PeerDoesNotExist")

/-- The private method `#getStream` (source lines 214-224). -/
def getStream (st : PortState) (streamID : String) : List Event × Except String Resource :=
  match storageGet st.storage streamID with
  | some Resource.mediaStream => ([], Except.ok Resource.mediaStream)
  | _ => ([Event.streamDoesNotExist streamID], Except.error "StreamDoesNotExist")

/-- The private method `#getMediaConnection` (source lines 202-212). -/
def getMediaConnection (st : PortState) (mediaConnectionID : String) :
    List Event × Except String Resource :=
  match storageGet st.storage mediaConnectionID with
  | some (Resource.mediaConn r) => ([], Except.ok (Resource.mediaConn r))
  | _ => ([Event.mediaConnectionDoesNotExist mediaConnectionID],
          Except.error "MediaConnectionDoesNotExist")

/-- `newPeer` (source lines 169-172): construct a `Peer` (the capability call)
and subscribe to its events.  Synchronously no event is sent and the registry
is untouched; registration happens in the `open` callback. -/
def newPeer (st : PortState) (peerID : Option String) : CmdResult :=
  ⟨[], st, none, [CapCall.createPeer peerID]⟩

/-- `connectToPeer` (source lines 174-178): resolve `local` via `#getPeer`
(whose throw aborts the handler before `peer.connect`), then
`peer.connect(remote)` and attach `handleDataMsg`. -/
def connectToPeer (st : PortState) (loc remote : String) : CmdResult :=
  match getPeer st loc with
  | (evs, Except.error e) => ⟨evs, st, some e, []⟩
  | (evs, Except.ok _) =>
      ⟨evs, (handleDataMsg st (some loc) remote).2, none, [CapCall.connect loc remote]⟩

/-- `callPeer` (source lines 180-185): resolve `local`, then `streamID`; on
success `peer.call(remote, stream)` and attach `handleMediaMsg`. -/
def callPeer (st : PortState) (loc remote streamID : String) : CmdResult :=
  match getPeer st loc with
  | (evs, Except.error e) => ⟨evs, st, some e, []⟩
  | (evs1, Except.ok _) =>
      match getStream st streamID with
      | (evs2, Except.error e) => ⟨evs1 ++ evs2, st, some e, []⟩
      | (evs2, Except.ok _) =>
          ⟨evs1 ++ evs2, (handleMediaMsg st (some loc) remote).2, none,
           [CapCall.call loc remote streamID]⟩

/-- `reconnectToServer` (source lines 187-190): resolve `peerID`, then
`peer.reconnect()`. -/
def reconnectToServer (st : PortState) (peerID : String) : CmdResult :=
  match getPeer st peerID with
  | (evs, Except.error e) => ⟨evs, st, some e, []⟩
  | (evs, Except.ok _) => ⟨evs, st, none, [CapCall.reconnect peerID]⟩

/-- JavaScript truthiness of the optional `streamID` field: `undefined` and
the empty string are falsy. -/
def strTruthy : Option String → Bool
  | none => false
  | some s => !(s == "")

/-- `answerMediaConnection` (source lines 192-200): resolve the media
connection; then `if (data.streamID)` - a truthiness test, so an absent or
empty `streamID` answers with no stream - resolve the stream and answer with
it. -/
def answerMediaConnection (st : PortState) (mediaConnectionID : String)
    (streamID : Option String) : CmdResult :=
  match getMediaConnection st mediaConnectionID with
  | (evs, Except.error e) => ⟨evs, st, some e, []⟩
  | (evs1, Except.ok _) =>
      if strTruthy streamID then
        match getStream st (streamID.getD "") with
        | (evs2, Except.error e) => ⟨evs1 ++ evs2, st, some e, []⟩
        | (evs2, Except.ok _) =>
            ⟨evs1 ++ evs2, st, none,
             [CapCall.answerWith mediaConnectionID (streamID.getD "")]⟩
      else ⟨evs1, st, none, [CapCall.answerNoStream mediaConnectionID]⟩

/-- The inbound command union `PeerCmd` (source lines 358-392). -/
inductive PeerCmd where
  | newPeerC (peerID : Option String)
  | connectToPeerC (loc remote : String)
  | callPeerC (loc remote streamID : String)
  | reconnectToServerC (peerID : String)
  | answerMediaConnectionC (mediaConnectionID : String) (streamID : Option String)
deriving DecidableEq, Repr

/-- `handleMsg` (source lines 23-26) restricted to well-typed `PeerCmd`
messages: the five command tags, first letter lowercased, name exactly the
five handler methods, which are invoked with the command as sole argument. -/
def handleMsgCmd (st : PortState) : PeerCmd → CmdResult
  | .newPeerC p => newPeer st p
  | .connectToPeerC l r => connectToPeer st l r
  | .callPeerC l r s => callPeer st l r s
  | .reconnectToServerC p => reconnectToServer st p
  | .answerMediaConnectionC m s => answerMediaConnection st m s

/-- The handles a command's handler looks up in the registry, in lookup order
(each is a field the caller supplied). -/
def requiredHandles : PeerCmd → List String
  | .newPeerC _ => []
  | .connectToPeerC l _ => [l]
  | .callPeerC l _ s => [l, s]
  | .reconnectToServerC p => [p]
  | .answerMediaConnectionC m s => if strTruthy s then [m, s.getD ""] else [m]

/-- The handle carried by a `*DoesNotExist` diagnostic event, if the event is
one. -/
def dneHandle : Event → Option String
  | .peerDoesNotExist h => some h
  | .mediaConnectionDoesNotExist h => some h
  | .streamDoesNotExist h => some h
  | _ => none

/-- `msg.type.charAt(0).toLowerCase() + msg.type.slice(1)` from `handleMsg`
(source line 24). -/
def lowerFirst (s : String) : String :=
  match s.data with
  | [] => ""
  | c :: rest => String.mk (c.toLower :: rest)

/-- The five command-handler methods of the `PeerPort` class. -/
def handlerMethodNames : List String :=
  ["newPeer", "connectToPeer", "callPeer", "reconnectToServer", "answerMediaConnection"]

/-- The four public methods of `PeerPort` that are not command handlers.
`this[fname]` can resolve to any of them, but invoked with the command record
as its sole argument each one throws synchronously before reaching any
`#send`: `handleMsg` re-dispatches the same message to itself without bound
(stack overflow); `subscribeToPeerEvents` calls `msg.on`, which is
`undefined`; `handleDataMsg` binds `local := msg` and `conn := undefined` and
immediately calls `conn.on`; `handleMediaMsg` likewise calls `conn.on` on
`undefined` (after generating a fresh id and registering `undefined` under
it).  In every case the exception escapes and no event is emitted. -/
def nonHandlerClassMethodNames : List String :=
  ["handleMsg", "subscribeToPeerEvents", "handleDataMsg", "handleMediaMsg"]

/-- The callable properties inherited from `Object.prototype` (including the
Annex B accessor helpers present in every browser and Node host) that return
normally when applied to the command record with no further arguments: the
call completes, `handleMsg` discards the result, no exception is raised and
no event is emitted. -/
def protoReturningNames : List String :=
  ["toString", "toLocaleString", "valueOf", "hasOwnProperty", "isPrototypeOf",
   "propertyIsEnumerable", "__lookupGetter__", "__lookupSetter__"]

/-- The `Object.prototype` callables that throw a `TypeError` when applied to
the command record as sole argument: both require their second argument to be
callable, and it is `undefined`. -/
def protoThrowingNames : List String :=
  ["__defineGetter__", "__defineSetter__"]

/-- The synchronous outcome of `this[fname](msg)` in `handleMsg` for a command
record `msg`: one of the five command handlers runs; or an exception escapes
`handleMsg` with no event emitted; or the resolved function is invoked and
returns normally, its value discarded - no exception and no event, a silent
ignore path. -/
inductive DispatchBehavior where
  | handlerRun (fname : String)
  | raisesNoEvent
  | returnsNoEvent
deriving DecidableEq, Repr

/-- The outcome of `this[fname](msg)` (source line 25) by JavaScript property
lookup and call semantics, case by case on where `fname` resolves: one of the
five handlers runs with the command; the four non-handler class methods throw
synchronously when applied to a command record (see
`nonHandlerClassMethodNames`); the returning `Object.prototype` callables are
invoked and return, their result discarded; `__defineGetter__` and
`__defineSetter__` throw a `TypeError` (second argument not callable);
`"constructor"` resolves to the class itself and calling a class without
`new` throws a `TypeError`; every other name resolves to `undefined`, and
calling `undefined` throws a `TypeError`. -/
def propertyCallBehavior (fname : String) : DispatchBehavior :=
  if handlerMethodNames.contains fname then DispatchBehavior.handlerRun fname
  else if nonHandlerClassMethodNames.contains fname then DispatchBehavior.raisesNoEvent
  else if protoReturningNames.contains fname then DispatchBehavior.returnsNoEvent
  else if protoThrowingNames.contains fname then DispatchBehavior.raisesNoEvent
  else if fname == "constructor" then DispatchBehavior.raisesNoEvent
  else DispatchBehavior.raisesNoEvent

/-- `handleMsg` (source lines 23-26) on a message whose `type` tag is `tag`:
lowercase the first character, then perform the property call. -/
def handleMsgBehavior (tag : String) : DispatchBehavior :=
  propertyCallBehavior (lowerFirst tag)

/-- One synchronous unit of work of the adapter: an inbound command handled by
`handleMsg`, or one library callback firing (each callback constructor carries
the closure environment captured at attachment time). -/
inductive Op where
  | opNewPeer (peerID : Option String)
  | opConnectToPeer (loc remote : String)
  | opCallPeer (loc remote streamID : String)
  | opReconnectToServer (peerID : String)
  | opAnswerMediaConnection (mediaConnectionID : String) (streamID : Option String)
  | opPeerOpen (assignedId : String)
  | opPeerClose (sub : PeerSub) (peerObjId : Option String)
  | opPeerDisconnected (id : String)
  | opPeerError (sub : PeerSub) (err : String)
  | opPeerConnection (sub : PeerSub) (remote : String)
  | opPeerCall (sub : PeerSub) (remote : String)
  | opDataOpen (sub : DataSub)
  | opDataClose (sub : DataSub)
  | opDataError (sub : DataSub) (err : String)
  | opDataData (sub : DataSub) (v : JsVal)
  | opMediaStream (sub : MediaSub)
  | opMediaClose (sub : MediaSub)
  | opMediaError (sub : MediaSub) (err : String)
deriving DecidableEq, Repr

/-- The port state after one unit of work. -/
def stepState (op : Op) (st : PortState) : PortState :=
  match op with
  | .opNewPeer p => (newPeer st p).state
  | .opConnectToPeer l r => (connectToPeer st l r).state
  | .opCallPeer l r s => (callPeer st l r s).state
  | .opReconnectToServer p => (reconnectToServer st p).state
  | .opAnswerMediaConnection m s => (answerMediaConnection st m s).state
  | .opPeerOpen id => (peerOnOpen id st).2.1
  | .opPeerClose sub pid => (peerOnClose sub pid st).2
  | .opPeerDisconnected id => (peerOnDisconnected id st).2
  | .opPeerError sub e => (peerOnError sub e st).2
  | .opPeerConnection sub r => (peerOnConnection sub r st).2
  | .opPeerCall sub r => (peerOnCall sub r st).2
  | .opDataOpen sub => (dataOnOpen sub st).2
  | .opDataClose sub => (dataOnClose sub st).2
  | .opDataError sub e => (dataOnError sub e st).2
  | .opDataData sub v => (dataOnData sub v st).2
  | .opMediaStream sub => (mediaOnStream sub st).2
  | .opMediaClose sub => (mediaOnClose sub st).2
  | .opMediaError sub e => (mediaOnError sub e st).2

/-- Whether the unit of work is the peer-session `close` callback. -/
def isPeerCloseOp : Op → Bool
  | .opPeerClose _ _ => true
  | _ => false

/-- Whether the registry holds a `Peer` instance under `id` (the success
condition of `#getPeer`). -/
def isRegisteredPeer (st : PortState) (id : String) : Bool :=
  match storageGet st.storage id with
  | some (Resource.peer _) => true
  | _ => false

/-- Whether the registry holds a `MediaStream` instance under `id` (the
success condition of `#getStream`). -/
def isRegisteredStream (st : PortState) (id : String) : Bool :=
  match storageGet st.storage id with
  | some Resource.mediaStream => true
  | _ => false

/-- Whether the registry holds a `MediaConnection` instance under `id` (the
success condition of `#getMediaConnection`). -/
def isRegisteredMediaConn (st : PortState) (id : String) : Bool :=
  match storageGet st.storage id with
  | some (Resource.mediaConn _) => true
  | _ => false

theorem storageGet_set_self (r : Registry) (k : String) (v : Resource) :
    storageGet (storageSet r k v) k = some v := by
  simp [storageSet, storageGet]

theorem storageGet_delete_self (r : Registry) (k : String) :
    storageGet (storageDelete r k) k = none := by
  induction r with
  | nil => rfl
  | cons e rest ih =>
      by_cases h : e.1 = k
      · simpa [storageDelete, h] using ih
      · simp [storageDelete, storageGet, h, ih]

theorem storageGet_delete_ne (r : Registry) {k k2 : String} (h : ¬ k = k2) :
    storageGet (storageDelete r k2) k = storageGet r k := by
  induction r with
  | nil => rfl
  | cons e rest ih =>
      by_cases h1 : e.1 = k2
      · have h2 : ¬ e.1 = k := by
          intro hk
          exact h (by rw [← hk, h1])
        have h3 : ¬ k2 = k := fun hk => h hk.symm
        simp [storageDelete, storageGet, h1, h2, h3, ih]
      · by_cases h2 : e.1 = k
        · simp [storageDelete, storageGet, h1, h2, h]
        · simp [storageDelete, storageGet, h1, h2, ih]

theorem storageGet_set_ne (r : Registry) {k k2 : String} (v : Resource) (h : ¬ k = k2) :
    storageGet (storageSet r k2 v) k = storageGet r k := by
  have h2 : ¬ k2 = k := fun hk => h hk.symm
  simp [storageSet, storageGet, h2, storageGet_delete_ne r h]

theorem storageGet_set_preserve (r : Registry) (k k2 : String) (v : Resource)
    (h : storageGet r k ≠ none) : storageGet (storageSet r k2 v) k ≠ none := by
  by_cases hk : k = k2
  · subst hk
    simp [storageGet_set_self]
  · rw [storageGet_set_ne r v hk]
    exact h

theorem connectToPeer_chr (st : PortState) (l r : String) :
    connectToPeer st l r =
      if isRegisteredPeer st l then
        ⟨[], ⟨st.storage, st.nextId + 1⟩, none, [CapCall.connect l r]⟩
      else ⟨[Event.peerDoesNotExist l], st, some "PeerDoesNotExist", []⟩ := by
  unfold connectToPeer getPeer isRegisteredPeer handleDataMsg
  rcases hg : storageGet st.storage l with _ | r2
  · simp [hg]
  · cases r2 <;> simp [hg]

theorem reconnectToServer_chr (st : PortState) (p : String) :
    reconnectToServer st p =
      if isRegisteredPeer st p then ⟨[], st, none, [CapCall.reconnect p]⟩
      else ⟨[Event.peerDoesNotExist p], st, some "PeerDoesNotExist", []⟩ := by
  unfold reconnectToServer getPeer isRegisteredPeer
  rcases hg : storageGet st.storage p with _ | r2
  · simp [hg]
  · cases r2 <;> simp [hg]

theorem callPeer_chr (st : PortState) (l r s : String) :
    callPeer st l r s =
      if isRegisteredPeer st l then
        if isRegisteredStream st s then
          ⟨[], ⟨storageSet st.storage (nanoid st.nextId) (Resource.mediaConn r), st.nextId + 1⟩,
           none, [CapCall.call l r s]⟩
        else ⟨[Event.streamDoesNotExist s], st, some "StreamDoesNotExist", []⟩
      else ⟨[Event.peerDoesNotExist l], st, some "PeerDoesNotExist", []⟩ := by
  unfold callPeer getPeer getStream isRegisteredPeer isRegisteredStream handleMediaMsg
  rcases hg : storageGet st.storage l with _ | r2
  · simp [hg]
  · rcases hs : storageGet st.storage s with _ | s2
    · cases r2 <;> simp [hg, hs]
    · cases r2 <;> cases s2 <;> simp [hg, hs]

theorem answerMediaConnection_chr (st : PortState) (m : String) (sid : Option String) :
    answerMediaConnection st m sid =
      if isRegisteredMediaConn st m then
        if strTruthy sid then
          if isRegisteredStream st (sid.getD "") then
            ⟨[], st, none, [CapCall.answerWith m (sid.getD "")]⟩
          else ⟨[Event.streamDoesNotExist (sid.getD "")], st, some "StreamDoesNotExist", []⟩
        else ⟨[], st, none, [CapCall.answerNoStream m]⟩
      else ⟨[Event.mediaConnectionDoesNotExist m], st,
            some "MediaConnectionDoesNotExist", []⟩ := by
  unfold answerMediaConnection getMediaConnection getStream isRegisteredMediaConn
    isRegisteredStream
  rcases hg : storageGet st.storage m with _ | r2
  · simp [hg]
  · rcases hs : storageGet st.storage (sid.getD "") with _ | s2
    · cases r2 <;> simp [hg, hs]
    · cases r2 <;> cases s2 <;> simp [hg, hs]

end PeerPort

namespace PeerPort

/-- Claim C1: the claim expects a bare string payload to yield
`DataReceivedJSON` with the value inline and no blob handle.  In JavaScript a
primitive string is never `instanceof String`, so the `data` callback of
`handleDataMsg` classifies every primitive string into the final `else`
branch: it generates a fresh blob handle, registers the raw payload under it,
and emits `DataReceivedBlob` with `contentType = "string"`.  In particular the
text value `"hello"` yields `DataReceivedBlob`, contradicting the claim (and
the spec scenario), while the `instanceof String/Number/Boolean` branches can
only ever match wrapper objects. -/
theorem c1_primitive_string_yields_blob :
    ∀ (sub : DataSub) (s : String) (st : PortState),
      dataOnData sub (JsVal.str s) st =
        ([Event.dataReceivedBlob sub.dataID (nanoid st.nextId) sub.loc sub.remote "string"],
         ⟨storageSet st.storage (nanoid st.nextId) (Resource.rawPayload (JsVal.str s)),
          st.nextId + 1⟩) := by
  intro sub s st
  rfl

/-- Claim C3: the claim (and the `PeerEvent` union the source itself declares)
says the media-connection `close` and `error` callbacks emit
`MediaConnectionClosed` and `MediaConnectionError`.  The object literals the
code actually sends carry the tags `"MediaStreamClosed"` and
`"MediaStreamError"`, neither of which is a variant of the declared
`PeerEvent` union, while the declared variants `MediaConnectionClosed` and
`MediaConnectionError` are never constructed. -/
theorem c3_media_close_error_wrong_tags :
    (mediaOnClose ⟨"m1", some "abc", "xyz"⟩ ⟨[], 0⟩).1.map tagOf = ["MediaStreamClosed"] ∧
    (mediaOnError ⟨"m1", some "abc", "xyz"⟩ "boom" ⟨[], 0⟩).1.map tagOf
      = ["MediaStreamError"] ∧
    declaredPeerEventTags.contains "MediaStreamClosed" = false ∧
    declaredPeerEventTags.contains "MediaStreamError" = false ∧
    declaredPeerEventTags.contains "MediaConnectionClosed" = true ∧
    declaredPeerEventTags.contains "MediaConnectionError" = true := by
  decide

/-- Claim C4: a `ConnectToPeer{local, remote}` command whose `local` handle is
not registered as a peer session emits exactly `PeerDoesNotExist{peerID:
local}`, leaves the port state untouched (in particular `nextId` is unchanged,
so no fresh data-channel handle is generated), and makes no capability call. -/
theorem c4_connect_unregistered_peer (st : PortState) (l r : String)
    (h : isRegisteredPeer st l = false) :
    connectToPeer st l r = ⟨[Event.peerDoesNotExist l], st, some "PeerDoesNotExist", []⟩ := by
  rw [connectToPeer_chr, h]
  rfl

theorem c4_witness :
    isRegisteredPeer ⟨[], 0⟩ "abc" = false ∧
    connectToPeer ⟨[], 0⟩ "abc" "xyz" =
      ⟨[Event.peerDoesNotExist "abc"], ⟨[], 0⟩, some "PeerDoesNotExist", []⟩ :=
  ⟨by decide, c4_connect_unregistered_peer ⟨[], 0⟩ "abc" "xyz" (by decide)⟩

/-- Claim C5: registration timing by resource kind.  `handleMediaMsg` assigns
one fresh handle (the current `nanoid`) per media connection and registers it
in the registry immediately at attachment time, before any callback fires;
`handleDataMsg` assigns one fresh handle per data channel at attachment time
but leaves the registry untouched, and only its `open` callback registers the
handle, at which point `DataOpened{dataID, local, remote}` is emitted. -/
theorem c5_registration_timing :
    ∀ (st : PortState) (loc : Option String) (remote : String),
      (handleMediaMsg st loc remote).1.mediaConnectionID = nanoid st.nextId ∧
      (handleMediaMsg st loc remote).2.nextId = st.nextId + 1 ∧
      storageGet (handleMediaMsg st loc remote).2.storage (nanoid st.nextId)
        = some (Resource.mediaConn remote) ∧
      (handleDataMsg st loc remote).1.dataID = nanoid st.nextId ∧
      (handleDataMsg st loc remote).2.nextId = st.nextId + 1 ∧
      (handleDataMsg st loc remote).2.storage = st.storage ∧
      dataOnOpen (handleDataMsg st loc remote).1 (handleDataMsg st loc remote).2 =
        ([Event.dataOpened (nanoid st.nextId) loc remote],
         ⟨storageSet st.storage (nanoid st.nextId) (Resource.dataConn remote),
          st.nextId + 1⟩) := by
  intro st loc remote
  exact ⟨rfl, rfl, storageGet_set_self _ _ _, rfl, rfl, rfl, rfl⟩

/-- Claim C6: after the `open` callback of a peer created by `NewPeer` fires
with assigned identifier `id`, the session is registered under `id` (a lookup
returns it), `PeerOpened{peerID: id}` is emitted and the captured `peerID`
variable holds `id`; the subsequent `close` callback removes `id` from the
registry and emits `PeerClosed{peerID: id}`. -/
theorem c6_peer_open_close_registry :
    ∀ (st : PortState) (id : String),
      (peerOnOpen id st).1 = [Event.peerOpened id] ∧
      storageGet (peerOnOpen id st).2.1.storage id = some (Resource.peer id) ∧
      (peerOnOpen id st).2.2 = ⟨some id⟩ ∧
      (peerOnClose (peerOnOpen id st).2.2 (some id) (peerOnOpen id st).2.1).1 =
        [Event.peerClosed (some id)] ∧
      storageGet
        (peerOnClose (peerOnOpen id st).2.2 (some id) (peerOnOpen id st).2.1).2.storage id
        = none := by
  intro st id
  exact ⟨rfl, storageGet_set_self _ _ _, rfl, rfl, storageGet_delete_self _ _⟩

/-- Claim C10: the peerID carried by `PeerClosed` and `PeerError`, and the
`local` handed to the data-channel and media-connection subscribers by the
`connection` and `call` callbacks, is exactly the captured `peerID` variable,
which the `open` callback sets to the assigned id; before `open` has fired the
variable is still `undefined`, so `PeerClosed`/`PeerError` then carry an
undefined peerID; only the `disconnected` callback carries the identifier the
capability passes to it. -/
theorem c10_captured_peer_id :
    ∀ (st : PortState) (id : String) (sub : PeerSub) (pid : Option String) (e r : String),
      (peerOnOpen id st).2.2.peerID = some id ∧
      (peerOnClose sub pid st).1 = [Event.peerClosed sub.peerID] ∧
      (peerOnError sub e st).1 = [Event.peerError sub.peerID e] ∧
      (peerOnClose initPeerSub pid st).1 = [Event.peerClosed none] ∧
      (peerOnError initPeerSub e st).1 = [Event.peerError none e] ∧
      (peerOnConnection sub r st).1.loc = sub.peerID ∧
      (peerOnCall sub r st).1.loc = sub.peerID ∧
      (peerOnDisconnected id st).1 = [Event.peerDisconnected id] := by
  intro st id sub pid e r
  exact ⟨rfl, rfl, rfl, rfl, rfl, rfl, rfl, rfl⟩

/-- Claim C7 counterexample: the claim says the stream-lookup step fails with
`StreamDoesNotExist` and aborts without answering whenever a `streamID` is
supplied but unregistered.  But `answerMediaConnection` guards the lookup with
the JavaScript truthiness test `if (data.streamID)`, and the empty string is
falsy: with `streamID = ""` supplied and `""` absent from the registry, the
command performs no stream lookup, emits nothing, and answers with no
stream. -/
theorem c7_counterexample_empty_streamid :
    storageGet [("m", Resource.mediaConn "r")] "" = none ∧
    answerMediaConnection ⟨[("m", Resource.mediaConn "r")], 0⟩ "m" (some "") =
      ⟨[], ⟨[("m", Resource.mediaConn "r")], 0⟩, none, [CapCall.answerNoStream "m"]⟩ := by
  decide

/-- Claim C7 (amended): `AnswerMediaConnection` with no `streamID` and with a
`streamID` resolve the media connection from the registry identically - when
the handle is absent or of the wrong kind, the result is the same
`MediaConnectionDoesNotExist` emission and abort for every value of the
optional `streamID`; the only difference between the cases is the additional
stream-lookup step, which fails with `StreamDoesNotExist` and aborts without
answering when the supplied `streamID` is non-empty but unregistered (an
empty-string `streamID` is falsy in JavaScript and is treated as absent:
the connection is answered with no stream). -/
theorem c7_answer_resolution (st : PortState) (m s : String) (sid : Option String) :
    (isRegisteredMediaConn st m = false →
      answerMediaConnection st m sid =
        ⟨[Event.mediaConnectionDoesNotExist m], st, some "MediaConnectionDoesNotExist", []⟩) ∧
    (isRegisteredMediaConn st m = true → s ≠ "" → isRegisteredStream st s = false →
      answerMediaConnection st m (some s) =
        ⟨[Event.streamDoesNotExist s], st, some "StreamDoesNotExist", []⟩) ∧
    (isRegisteredMediaConn st m = true →
      answerMediaConnection st m none = ⟨[], st, none, [CapCall.answerNoStream m]⟩) := by
  refine ⟨?_, ?_, ?_⟩
  · intro h
    rw [answerMediaConnection_chr, h]
    rfl
  · intro h hs h2
    have ht : strTruthy (some s) = true := by
      simp [strTruthy, hs]
    rw [answerMediaConnection_chr, h]
    simp only [ht, Option.getD_some, h2]
    rfl
  · intro h
    rw [answerMediaConnection_chr, h]
    rfl

theorem c7_witness :
    (answerMediaConnection ⟨[], 0⟩ "m" (some "s1") =
      ⟨[Event.mediaConnectionDoesNotExist "m"], ⟨[], 0⟩,
       some "MediaConnectionDoesNotExist", []⟩) ∧
    (answerMediaConnection ⟨[("m", Resource.mediaConn "r")], 0⟩ "m" (some "s1") =
      ⟨[Event.streamDoesNotExist "s1"], ⟨[("m", Resource.mediaConn "r")], 0⟩,
       some "StreamDoesNotExist", []⟩) ∧
    (answerMediaConnection ⟨[("m", Resource.mediaConn "r")], 0⟩ "m" none =
      ⟨[], ⟨[("m", Resource.mediaConn "r")], 0⟩, none, [CapCall.answerNoStream "m"]⟩) :=
  ⟨(c7_answer_resolution ⟨[], 0⟩ "m" "s1" (some "s1")).1 (by decide),
   (c7_answer_resolution ⟨[("m", Resource.mediaConn "r")], 0⟩ "m" "s1" (some "s1")).2.1
     (by decide) (by decide) (by decide),
   (c7_answer_resolution ⟨[("m", Resource.mediaConn "r")], 0⟩ "m" "s1" none).2.2
     (by decide)⟩

/-- Claim C2 counterexample: the claim says a lookup failure never raises an
unhandled fault outside the command's synchronous handling.  But the
`#get...` helpers throw a string after emitting the diagnostic, and
`handleMsg` installs no `try`/`catch`, so on a `ConnectToPeer` whose `local`
handle is unregistered the thrown `"PeerDoesNotExist"` escapes `handleMsg`
uncaught (modelled by the `thrown` field of the result being `some`). -/
theorem c2_counterexample_throw_escapes :
    (handleMsgCmd ⟨[], 0⟩ (PeerCmd.connectToPeerC "abc" "xyz")).thrown =
      some "PeerDoesNotExist" := by
  decide

/-- Claim C2 (amended): whenever a command's required handle lookup fails, the
dispatcher emits exactly one `*DoesNotExist` diagnostic event carrying one of
the handles the caller supplied (the one whose lookup failed), halts that
command only - the registry and id supply are unchanged and no capability
call is made - but the halt is implemented by throwing a string exception
that escapes `handleMsg` uncaught (`thrown = some tag`): the adapter itself
installs no recovery, so shielding the dispatcher is left to the host. -/
theorem c2_lookup_failure_single_diagnostic (st : PortState) (cmd : PeerCmd) (e : String)
    (hth : (handleMsgCmd st cmd).thrown = some e) :
    (handleMsgCmd st cmd).state = st ∧
    (handleMsgCmd st cmd).calls = [] ∧
    ∃ h, h ∈ requiredHandles cmd ∧
      (handleMsgCmd st cmd).events.map dneHandle = [some h] := by
  cases cmd with
  | newPeerC p => simp [handleMsgCmd, newPeer] at hth
  | connectToPeerC l r =>
      rcases h1 : isRegisteredPeer st l with _ | _
      · rw [handleMsgCmd, connectToPeer_chr, h1]
        exact ⟨rfl, rfl, l, by simp [requiredHandles], rfl⟩
      · rw [handleMsgCmd, connectToPeer_chr, h1] at hth
        simp at hth
  | callPeerC l r s =>
      rcases h1 : isRegisteredPeer st l with _ | _
      · rw [handleMsgCmd, callPeer_chr, h1]
        exact ⟨rfl, rfl, l, by simp [requiredHandles], rfl⟩
      · rcases h2 : isRegisteredStream st s with _ | _
        · rw [handleMsgCmd, callPeer_chr, h1, h2]
          exact ⟨rfl, rfl, s, by simp [requiredHandles], rfl⟩
        · rw [handleMsgCmd, callPeer_chr, h1, h2] at hth
          simp at hth
  | reconnectToServerC p =>
      rcases h1 : isRegisteredPeer st p with _ | _
      · rw [handleMsgCmd, reconnectToServer_chr, h1]
        exact ⟨rfl, rfl, p, by simp [requiredHandles], rfl⟩
      · rw [handleMsgCmd, reconnectToServer_chr, h1] at hth
        simp at hth
  | answerMediaConnectionC m sid =>
      rcases h1 : isRegisteredMediaConn st m with _ | _
      · rw [handleMsgCmd, answerMediaConnection_chr, h1]
        refine ⟨rfl, rfl, m, ?_, rfl⟩
        rcases ht : strTruthy sid with _ | _ <;> simp [requiredHandles, ht]
      · rcases ht : strTruthy sid with _ | _
        · rw [handleMsgCmd, answerMediaConnection_chr, h1, ht] at hth
          simp at hth
        · rcases h2 : isRegisteredStream st (sid.getD "") with _ | _
          · rw [handleMsgCmd, answerMediaConnection_chr, h1, ht]
            refine ⟨?_, ?_, sid.getD "", ?_, ?_⟩
            · rw [h2]
              rfl
            · rw [h2]
              rfl
            · simp [requiredHandles, ht]
            · rw [h2]
              rfl
          · rw [handleMsgCmd, answerMediaConnection_chr, h1, ht, h2] at hth
            simp at hth

theorem c2_witness :
    (handleMsgCmd ⟨[], 0⟩ (PeerCmd.callPeerC "abc" "xyz" "s1")).state = ⟨[], 0⟩ ∧
    (handleMsgCmd ⟨[], 0⟩ (PeerCmd.callPeerC "abc" "xyz" "s1")).calls = [] ∧
    ∃ h, h ∈ requiredHandles (PeerCmd.callPeerC "abc" "xyz" "s1") ∧
      (handleMsgCmd ⟨[], 0⟩ (PeerCmd.callPeerC "abc" "xyz" "s1")).events.map dneHandle
        = [some h] :=
  c2_lookup_failure_single_diagnostic ⟨[], 0⟩ (PeerCmd.callPeerC "abc" "xyz" "s1")
    "PeerDoesNotExist" (by decide)

/-- Case analysis of the property call for any name that is not one of the
five handler methods: no handler runs, the outcome is either an escaping
exception or a silently discarded return, and the silent case happens exactly
for the returning `Object.prototype` callables. -/
theorem propertyCallBehavior_not_handler (f : String)
    (h : handlerMethodNames.contains f = false) :
    (propertyCallBehavior f = DispatchBehavior.raisesNoEvent ∨
     propertyCallBehavior f = DispatchBehavior.returnsNoEvent) ∧
    (propertyCallBehavior f = DispatchBehavior.returnsNoEvent ↔
     protoReturningNames.contains f = true) := by
  have hh : f ∉ handlerMethodNames := by simpa using h
  rcases h1 : nonHandlerClassMethodNames.contains f with _ | _
  · have m1 : f ∉ nonHandlerClassMethodNames := by simpa using h1
    rcases h2 : protoReturningNames.contains f with _ | _
    · have m2 : f ∉ protoReturningNames := by simpa using h2
      simp [propertyCallBehavior, hh, m1, m2]
    · have m2 : f ∈ protoReturningNames := by simpa using h2
      simp [propertyCallBehavior, hh, m1, m2]
  · have m1 : f ∈ nonHandlerClassMethodNames := by simpa using h1
    have m2 : f ∉ protoReturningNames := by
      have hcases : f = "handleMsg" ∨ f = "subscribeToPeerEvents" ∨
          f = "handleDataMsg" ∨ f = "handleMediaMsg" := by
        simpa [nonHandlerClassMethodNames] using m1
      rcases hcases with rfl | rfl | rfl | rfl <;> decide
    simp [propertyCallBehavior, hh, m1, m2]

/-- Claim C9 counterexample: the claim says every tag whose lowercased form
does not name one of the five handler methods makes `handleMsg` raise an
exception, with no ignore path.  But the tag `"ToString"` lowercases to
`"toString"`, not a handler method, and `this["toString"](msg)` resolves to
`Object.prototype.toString`, which is invoked and returns normally - no
exception is raised and no event is emitted, a silent ignore path. -/
theorem c9_counterexample_other_method_tag :
    handlerMethodNames.contains (lowerFirst "ToString") = false ∧
    handleMsgBehavior "ToString" = DispatchBehavior.returnsNoEvent := by
  decide

/-- Claim C9 (amended): for every inbound command whose type tag, after
lowercasing its first character, does not name one of the five handler
methods, `handleMsg` runs no handler and emits no event (there is no
diagnostic event), but it does not always raise: the call raises an exception
exactly when the lowered name is not one of the `Object.prototype` callables
that return normally (`toString`, `toLocaleString`, `valueOf`,
`hasOwnProperty`, `isPrototypeOf`, `propertyIsEnumerable`,
`__lookupGetter__`, `__lookupSetter__`) - tags resolving to those are
silently ignored, their discarded return value standing in for an ignore
path.  All remaining names - no binding at all, `"constructor"`,
`__defineGetter__`/`__defineSetter__`, and the four non-handler class methods
(whose bodies throw on the command record, `handleMediaMsg` after registering
a fresh handle) - make an exception escape `handleMsg` with no event. -/
theorem c9_unknown_tag_dispatch (tag : String)
    (h : handlerMethodNames.contains (lowerFirst tag) = false) :
    (handleMsgBehavior tag = DispatchBehavior.raisesNoEvent ∨
     handleMsgBehavior tag = DispatchBehavior.returnsNoEvent) ∧
    (handleMsgBehavior tag = DispatchBehavior.returnsNoEvent ↔
     protoReturningNames.contains (lowerFirst tag) = true) :=
  propertyCallBehavior_not_handler (lowerFirst tag) h

theorem c9_witness :
    (handleMsgBehavior "Bogus" = DispatchBehavior.raisesNoEvent ∨
     handleMsgBehavior "Bogus" = DispatchBehavior.returnsNoEvent) ∧
    (handleMsgBehavior "Bogus" = DispatchBehavior.returnsNoEvent ↔
     protoReturningNames.contains (lowerFirst "Bogus") = true) :=
  c9_unknown_tag_dispatch "Bogus" (by decide)

/-- Claim C8: across every command handler and every subscriber callback, the
only operation that ever removes a registry entry is the peer-session `close`
callback: any unit of work other than `opPeerClose` preserves the presence of
every registered handle, and the data-channel and media-connection `close`
callbacks leave the whole port state (in particular the registry) unchanged. -/
theorem c8_only_peer_close_deletes :
    (∀ (op : Op) (st : PortState) (k : String),
        isPeerCloseOp op = false → storageGet st.storage k ≠ none →
        storageGet (stepState op st).storage k ≠ none) ∧
    (∀ (sub : DataSub) (st : PortState), (dataOnClose sub st).2 = st) ∧
    (∀ (sub : MediaSub) (st : PortState), (mediaOnClose sub st).2 = st) := by
  refine ⟨?_, fun sub st => rfl, fun sub st => rfl⟩
  intro op st k hop hk
  cases op with
  | opNewPeer p => exact hk
  | opConnectToPeer l r =>
      have hc := connectToPeer_chr st l r
      simp only [stepState, hc]
      rcases h1 : isRegisteredPeer st l with _ | _
      · simpa [h1] using hk
      · simpa [h1] using hk
  | opCallPeer l r s =>
      have hc := callPeer_chr st l r s
      simp only [stepState, hc]
      rcases h1 : isRegisteredPeer st l with _ | _
      · simpa [h1] using hk
      · rcases h2 : isRegisteredStream st s with _ | _
        · simpa [h1, h2] using hk
        · simp only [h1, h2]
          exact storageGet_set_preserve _ _ _ _ hk
  | opReconnectToServer p =>
      have hc := reconnectToServer_chr st p
      simp only [stepState, hc]
      rcases h1 : isRegisteredPeer st p with _ | _
      · simpa [h1] using hk
      · simpa [h1] using hk
  | opAnswerMediaConnection m sid =>
      have hc := answerMediaConnection_chr st m sid
      simp only [stepState, hc]
      rcases h1 : isRegisteredMediaConn st m with _ | _
      · simpa [h1] using hk
      · rcases ht : strTruthy sid with _ | _
        · simpa [h1, ht] using hk
        · rcases h2 : isRegisteredStream st (sid.getD "") with _ | _
          · simpa [h1, ht, h2] using hk
          · simpa [h1, ht, h2] using hk
  | opPeerOpen id => exact storageGet_set_preserve _ _ _ _ hk
  | opPeerClose sub pid => simp [isPeerCloseOp] at hop
  | opPeerDisconnected id => exact hk
  | opPeerError sub e => exact hk
  | opPeerConnection sub r => exact hk
  | opPeerCall sub r => exact storageGet_set_preserve _ _ _ _ hk
  | opDataOpen sub => exact storageGet_set_preserve _ _ _ _ hk
  | opDataClose sub => exact hk
  | opDataError sub e => exact hk
  | opDataData sub v =>
      cases v <;> first
        | exact hk
        | exact storageGet_set_preserve _ _ _ _ hk
  | opMediaStream sub => exact storageGet_set_preserve _ _ _ _ hk
  | opMediaClose sub => exact hk
  | opMediaError sub e => exact hk

theorem c8_witness :
    storageGet ([("k", Resource.mediaStream)] : Registry) "k" ≠ none ∧
    storageGet
      (stepState (Op.opDataData ⟨"d", none, "r"⟩ (JsVal.str "x"))
        ⟨[("k", Resource.mediaStream)], 0⟩).storage "k" ≠ none :=
  ⟨by decide,
   c8_only_peer_close_deletes.1 (Op.opDataData ⟨"d", none, "r"⟩ (JsVal.str "x"))
     ⟨[("k", Resource.mediaStream)], 0⟩ "k" (by decide) (by decide)⟩

end PeerPort
